import Mathlib

/-!
# Coordinate Codec & Validator — verification of the spec against the source

Shallow embedding of the `AxisCoordinate` data model and its derived
encodings from `src/frontend/src/lib/types.ts` (the TypeScript codec:
`AXIS_KEYS`, `createEmptyCoordinate`, `coordinateToArray`,
`coordinateToNuremberg`), together with the backend operations recovered
from the compiled backend models in
`src/backend/__pycache__/models.cpython-310.pyc` (the bytecode of
`models.py`, readable despite text-mode mangling): `validate_temporal`,
`as_list`, `nuremberg_number`, `get_filled_axes_count`,
`get_axis_completeness_ratio`, `coordinate_hash` and
`unified_system_id`. Only two pieces are genuinely absent from `src` and
are modelled from the spec, marked as such in their doc comments:
`decode`, and the aggregation shell of the `/axis/validate` endpoint
(whose per-field temporal check is the embedded `validate_temporal`).

Machine strings are Lean `String`s; JavaScript `Array.join` is embedded as
an explicit recursive intercalation `joinSep`, and the splitting the spec
describes as `splitSep`, so that the round-trip properties can be proved
by structural induction.
-/

namespace Codec

/-- The `sector` field of the TypeScript interface has type
`string | number`; numbers that reach the codec are integral codes. -/
inductive Sector where
  | str (s : String)
  | num (n : Int)
deriving DecidableEq, Repr

/-- `AxisCoordinate` from `src/frontend/src/lib/types.ts`: `pillar` and
`sector` are required, the other 14 axes optional; `honeycomb` is the only
array-valued axis. -/
structure AxisCoordinate where
  pillar : String
  sector : Sector
  honeycomb : Option (List String)
  branch : Option String
  node : Option String
  regulatory : Option String
  compliance : Option String
  compliance_level : Option String
  audit_requirements : Option String
  regulatory_framework : Option String
  role_knowledge : Option String
  role_sector : Option String
  role_regulatory : Option String
  role_compliance : Option String
  location : Option String
  temporal : Option String
deriving DecidableEq, Repr

/-- The sixteen axis keys, in the canonical order of the source
constant `AXIS_KEYS`. -/
inductive AxisKey where
  | pillar | sector | honeycomb | branch | node
  | regulatory | compliance | compliance_level | audit_requirements
  | regulatory_framework
  | role_knowledge | role_sector | role_regulatory | role_compliance
  | location | temporal
deriving DecidableEq, Repr

/-- `AXIS_KEYS` from the source: the fixed canonical serialization order. -/
def AXIS_KEYS : List AxisKey :=
  [.pillar, .sector, .honeycomb, .branch, .node,
   .regulatory, .compliance, .compliance_level, .audit_requirements,
   .regulatory_framework,
   .role_knowledge, .role_sector, .role_regulatory, .role_compliance,
   .location, .temporal]

/-- The value stored at one axis of a coordinate, as the heterogeneous
union that `coord[key]` produces in the TypeScript source: absent
(`undefined`), a string, a number (only `sector`), or a string array
(only `honeycomb`). -/
inductive AxisValue where
  | undef
  | str (s : String)
  | num (n : Int)
  | arr (l : List String)
deriving DecidableEq, Repr

/-- The value `coord[key]` of the TypeScript source, axis by axis. -/
def axisValueOf (c : AxisCoordinate) : AxisKey → AxisValue
  | .pillar => .str c.pillar
  | .sector =>
      match c.sector with
      | .str s => .str s
      | .num n => .num n
  | .honeycomb =>
      match c.honeycomb with
      | none => .undef
      | some l => .arr l
  | .branch => optVal c.branch
  | .node => optVal c.node
  | .regulatory => optVal c.regulatory
  | .compliance => optVal c.compliance
  | .compliance_level => optVal c.compliance_level
  | .audit_requirements => optVal c.audit_requirements
  | .regulatory_framework => optVal c.regulatory_framework
  | .role_knowledge => optVal c.role_knowledge
  | .role_sector => optVal c.role_sector
  | .role_regulatory => optVal c.role_regulatory
  | .role_compliance => optVal c.role_compliance
  | .location => optVal c.location
  | .temporal => optVal c.temporal
where
  /-- An optional string field as an `AxisValue`. -/
  optVal : Option String → AxisValue
    | none => .undef
    | some s => .str s

/-- `coordinateToArray` from the source:
`AXIS_KEYS.map(key => coord[key])`. -/
def coordinateToArray (c : AxisCoordinate) : List AxisValue :=
  AXIS_KEYS.map (axisValueOf c)

/-- `Array.join(sep)` of JavaScript, embedded as explicit intercalation:
the elements in order with `sep` between consecutive elements. -/
def joinSep (sep : Char) : List String → String
  | [] => ""
  | [s] => s
  | s :: rest => s ++ sep.toString ++ joinSep sep rest

/-- Rendering of one axis value inside `coordinateToNuremberg`:
an array is joined with the comma; otherwise the source computes
`value?.toString() || ''`, so an absent value or the empty string renders
as the empty string, and a number as its decimal string. -/
def renderValue : AxisValue → String
  | .undef => ""
  | .str s => s
  | .num n => toString n
  | .arr l => joinSep ',' l

/-- `coordinateToNuremberg` from the source: render each axis value in
`AXIS_KEYS` order and join the 16 slots with `|`. -/
def coordinateToNuremberg (c : AxisCoordinate) : String :=
  joinSep '|' ((AXIS_KEYS.map (axisValueOf c)).map renderValue)

/-- `createEmptyCoordinate` from the source: `pillar` and `sector` are
the empty string, every optional axis is absent. -/
def createEmptyCoordinate : AxisCoordinate :=
  ⟨"", .str (""), none, none, none, none, none, none, none, none,
   none, none, none, none, none, none⟩

/-- Splitting a character list at every occurrence of `sep`, the way
JavaScript `String.split` and Python `str.split` treat a one-character
separator: the empty input yields one empty piece. -/
def splitSepAux (sep : Char) : List Char → List (List Char)
  | [] => [[]]
  | c :: cs =>
      if c = sep then
        [] :: splitSepAux sep cs
      else
        match splitSepAux sep cs with
        | [] => [[c]]
        | h :: t => (c :: h) :: t

/-- Splitting a string on a one-character separator. -/
def splitSep (sep : Char) (s : String) : List String :=
  (splitSepAux sep s.data).map String.mk

/-- Element `i` of the slot list, the empty string past the end. -/
def getSlot (slots : List String) (i : Nat) : String :=
  slots.getD i ("")

/-- An empty slot decodes to an absent optional axis, a non-empty slot to
a present one. -/
def optOf (s : String) : Option String :=
  if s = "" then none else some s

/-- Modelled from the spec: `decode(nurembergString) -> AxisCoordinate`,
absent from the repository source (only `encode` = `coordinateToNuremberg`
is in `src`). Per the spec it splits on `|` into the 16 positional slots
in canonical axis order, then splits the honeycomb slot on `,`; an empty
slot yields an absent optional axis, and `sector` is recovered as a
string, since the pipe-delimited form carries no type information. -/
def decode (s : String) : AxisCoordinate :=
  let sl := splitSep '|' s
  ⟨getSlot sl 0,
   .str (getSlot sl 1),
   (if getSlot sl 2 = "" then none else some (splitSep ',' (getSlot sl 2))),
   optOf (getSlot sl 3), optOf (getSlot sl 4), optOf (getSlot sl 5),
   optOf (getSlot sl 6), optOf (getSlot sl 7), optOf (getSlot sl 8),
   optOf (getSlot sl 9), optOf (getSlot sl 10), optOf (getSlot sl 11),
   optOf (getSlot sl 12), optOf (getSlot sl 13), optOf (getSlot sl 14),
   optOf (getSlot sl 15)⟩

/-! ## Temporal axis: the backend `validate_temporal` check

The compiled backend (`src/backend/__pycache__/models.cpython-310.pyc`,
the bytecode of `models.py`) contains `validate_temporal`, which accepts a
temporal value when `datetime.fromisoformat(v.replace('Z', '+00:00'))`
succeeds on Python 3.10. The following definitions embed that check: the
Python `replace` substitutes every occurrence of `Z`, and the acceptance
of `fromisoformat` follows the CPython 3.10 C parser
(`parse_isoformat_date`, `parse_isoformat_time`, `parse_hh_mm_ss_ff` in
`Modules/_datetimemodule.c`) byte for byte over the UTF-8 encoding,
including its quirks: any single separator character after the ten date
bytes, hour-only times, fractions of exactly 3 or 6 digits, offsets of
byte shape sign+5/8/15 whose components are unconstrained two-digit
numbers as long as the total magnitude stays below 24 hours, and the
calendar checks of the constructor (real month lengths, leap years,
year at least 1). -/

/-- The UTF-8 bytes of one character, computed from its code point. -/
def utf8Bytes (c : Char) : List Nat :=
  let v := c.toNat
  if v < 128 then [v]
  else if v < 2048 then [192 + v / 64, 128 + v % 64]
  else if v < 65536 then
    [224 + v / 4096, 128 + (v / 64) % 64, 128 + v % 64]
  else
    [240 + v / 262144, 128 + (v / 4096) % 64, 128 + (v / 64) % 64,
     128 + v % 64]

/-- The UTF-8 bytes of a string (Python `str.encode` with utf-8). -/
def strBytes (s : String) : List Nat :=
  s.data.flatMap utf8Bytes

/-- Python `v.replace('Z', '+00:00')` as invoked by `validate_temporal`:
every occurrence of `Z` is replaced. -/
def pyReplaceZ (s : String) : String :=
  String.mk (s.data.flatMap (fun c => if c == 'Z' then ("+00:00").data else [c]))

/-- An ASCII digit byte. -/
def isDigitB (b : Nat) : Bool :=
  decide (48 ≤ b ∧ b ≤ 57)

/-- Exactly two ASCII digit bytes, as a number together with the rest
(the C helper `parse_digits` with length 2). -/
def twoDigitB : List Nat → Option (Nat × List Nat)
  | b1 :: b2 :: rest =>
      if isDigitB b1 && isDigitB b2 then
        some ((b1 - 48) * 10 + (b2 - 48), rest)
      else none
  | _ => none

/-- A fractional-second group of exactly 3 or 6 digit bytes, scaled to
microseconds (3-digit fractions are milliseconds). -/
def parseFractionB (bs : List Nat) : Option Nat :=
  if (bs.length == 3 || bs.length == 6) && bs.all isDigitB then
    some ((bs.foldl (fun a b => a * 10 + (b - 48)) 0) *
      (if bs.length == 3 then 1000 else 1))
  else none

/-- The C routine `parse_hh_mm_ss_ff` of CPython 3.10 on a byte slice.
`tzFollows` records whether the byte one past the slice is a timezone
sign (then reading the terminator yields a non-NUL character). Returns
hour, minute, second, microsecond, and the C return value 1 as a Bool:
`true` when the parse stopped by reading a non-NUL byte at or past the
end of the slice — accepted by the caller only when a timezone follows.
Byte 58 is the colon, byte 46 the dot. -/
def parseHMSFFB (bs : List Nat) (tzFollows : Bool) :
    Option (Nat × Nat × Nat × Nat × Bool) :=
  match twoDigitB bs with
  | none => none
  | some (h, r1) =>
    match r1 with
    | [] => some (h, 0, 0, 0, tzFollows)
    | [b] => some (h, 0, 0, 0, !(b == 0))
    | c :: rest =>
      if c == 58 then
        match twoDigitB rest with
        | none => none
        | some (m, r2) =>
          match r2 with
          | [] => some (h, m, 0, 0, tzFollows)
          | [b] => some (h, m, 0, 0, !(b == 0))
          | c2 :: rest2 =>
            if c2 == 58 then
              match twoDigitB rest2 with
              | none => none
              | some (s, r3) =>
                match r3 with
                | [] => some (h, m, s, 0, tzFollows)
                | [b] => some (h, m, s, 0, !(b == 0))
                | c3 :: rest3 =>
                  if c3 == 58 || c3 == 46 then
                    match parseFractionB rest3 with
                    | some us => some (h, m, s, us, tzFollows)
                    | none => none
                  else none
            else if c2 == 46 then
              match parseFractionB rest2 with
              | some us => some (h, m, 0, us, tzFollows)
              | none => none
            else none
      else if c == 46 then
        match parseFractionB rest with
        | some us => some (h, 0, 0, us, tzFollows)
        | none => none
      else none

/-- The C timezone scan: split the time bytes at the first `+` (43) or
`-` (45), dropping the sign byte. -/
def splitAtSignB : List Nat → (List Nat × Option (List Nat))
  | [] => ([], none)
  | b :: rest =>
      if b == 43 || b == 45 then ([], some rest)
      else
        match splitAtSignB rest with
        | (pre, tz) => (b :: pre, tz)

/-- The C routine `parse_isoformat_time` of CPython 3.10 combined with
the range checks of the `datetime`/`timezone` constructors: hour at most
23, minute and second at most 59, timezone of byte length 5, 8 or 15
after the sign whose total offset magnitude is strictly below 24 hours. -/
def timeOkB (bs : List Nat) : Bool :=
  match splitAtSignB bs with
  | (timePart, none) =>
      match parseHMSFFB timePart false with
      | some (h, m, s, _us, rv) =>
          !rv && decide (h ≤ 23 ∧ m ≤ 59 ∧ s ≤ 59)
      | none => false
  | (timePart, some tzPart) =>
      match parseHMSFFB timePart true with
      | none => false
      | some (h, m, s, _us, _rv) =>
          decide (h ≤ 23 ∧ m ≤ 59 ∧ s ≤ 59) &&
          decide (tzPart.length = 5 ∨ tzPart.length = 8 ∨
            tzPart.length = 15) &&
          (match parseHMSFFB tzPart false with
           | some (th, tm, ts, tus, rvz) =>
               !rvz &&
               decide ((th * 3600 + tm * 60 + ts) * 1000000 + tus <
                 86400000000)
           | none => false)

/-- Gregorian leap year. -/
def leapYear (y : Nat) : Bool :=
  y % 4 == 0 && (y % 100 != 0 || y % 400 == 0)

/-- Length of a month in the Gregorian calendar. -/
def daysInMonth (y m : Nat) : Nat :=
  if m == 2 then (if leapYear y then 29 else 28)
  else if m == 4 || m == 6 || m == 9 || m == 11 then 30
  else 31

/-- The C routine `parse_isoformat_date`: the first ten bytes must be
four digits, hyphen (45), two digits, hyphen, two digits. -/
def parseIsoDateB : List Nat → Option (Nat × Nat × Nat × List Nat)
  | y1 :: y2 :: y3 :: y4 :: s1 :: m1 :: m2 :: s2 :: e1 :: e2 :: rest =>
      if isDigitB y1 && isDigitB y2 && isDigitB y3 && isDigitB y4 &&
          (s1 == 45) && isDigitB m1 && isDigitB m2 && (s2 == 45) &&
          isDigitB e1 && isDigitB e2 then
        some ((y1 - 48) * 1000 + (y2 - 48) * 100 + (y3 - 48) * 10 +
            (y4 - 48),
          (m1 - 48) * 10 + (m2 - 48), (e1 - 48) * 10 + (e2 - 48), rest)
      else none
  | _ => none

/-- `datetime.fromisoformat` acceptance on CPython 3.10, over the UTF-8
bytes of the string: a ten-byte date validated against the real calendar
with year at least 1, then optionally one separator character of any kind
(skipped by its UTF-8 length, as the C code does) followed by a non-empty
time part. -/
def fromisoformatOk (s : String) : Bool :=
  match parseIsoDateB (strBytes s) with
  | none => false
  | some (y, mo, dy, rest) =>
      decide (1 ≤ y ∧ 1 ≤ mo ∧ mo ≤ 12 ∧ 1 ≤ dy ∧ dy ≤ daysInMonth y mo) &&
      (match rest with
       | [] => true
       | sep :: _ =>
           timeOkB (rest.drop
             (if sep < 128 then 1
              else if sep / 16 == 14 then 3
              else if sep / 16 == 15 then 4
              else 2)))

/-! ## Validation (backend model) -/

/-- The report `validate` returns: `{valid: bool, errors: [string]}`. -/
structure ValidationReport where
  valid : Bool
  errors : List String
deriving DecidableEq, Repr

/-- Structural error reported when `pillar` is empty. -/
def pillarError : String := "Axis pillar: must be a non-empty string"

/-- Structural error reported when `sector` is empty. -/
def sectorError : String := "Axis sector: must be non-empty"

/-- Field-scoped error reported when `temporal` is present but not an
ISO-8601 datetime: the axis name followed by the message the backend
raises in `validate_temporal` (recovered from the compiled models,
`Temporal must be valid ISO 8601 format`). -/
def temporalError : String :=
  "temporal: Temporal must be valid ISO 8601 format"

/-- A sector value is non-empty: a numeric sector always is, a string
sector when it is not the empty string. -/
def sectorNonEmpty : Sector → Bool
  | .str s => !(s == "")
  | .num _ => true

/-- Modelled from the spec: the aggregation shell of
`validate(coordinate)` — the `/axis/validate` endpoint logic, which is
not under `src` even in compiled form. It applies the structural
pillar/sector non-empty checks and re-applies the per-field temporal
check; that per-field check is not modelled but embedded from
`validate_temporal` in the compiled backend models
(`fromisoformatOk` after `pyReplaceZ`). Every violation is aggregated
into one report instead of failing fast; `valid` is true exactly when no
violation was found. -/
def validate (c : AxisCoordinate) : ValidationReport :=
  let errs :=
    (if c.pillar == "" then [pillarError] else []) ++
    (if sectorNonEmpty c.sector then [] else [sectorError]) ++
    (match c.temporal with
     | none => []
     | some t =>
         if fromisoformatOk (pyReplaceZ t) then [] else [temporalError])
  ⟨errs.isEmpty, errs⟩

/-! ## Completeness (backend model) -/

/-- An axis value is filled when it is neither absent nor the empty
string nor the empty list. -/
def isFilled : AxisValue → Bool
  | .undef => false
  | .str s => !(s == "")
  | .num _ => true
  | .arr l => !l.isEmpty

/-- `get_filled_axes_count()` from the compiled backend models
(`src/backend/__pycache__/models.cpython-310.pyc`): iterate `AXIS_KEYS`
and count the values that are not `None`, not the empty string and not
the empty list. -/
def get_filled_axes_count (c : AxisCoordinate) : Nat :=
  (coordinateToArray c).countP (fun v => isFilled v)

/-- `get_axis_completeness_ratio()` from the compiled backend models:
the filled count divided by the length of `AXIS_KEYS`, which is 16. -/
def get_axis_completeness_ratio (c : AxisCoordinate) : ℚ :=
  (get_filled_axes_count c : ℚ) / 16

/-! ## SHA-256 for the hash identifiers

The compiled backend models derive `coordinate_hash` and
`unified_system_id` with `hashlib.sha256` over UTF-8 bytes. The digest is
implemented here bit-faithfully, with 32-bit words as `Nat` values
reduced modulo `2^32`. -/

/-- 32-bit modulus. -/
def M32 : Nat := 4294967296

/-- Addition modulo `2^32`. -/
def add32 (a b : Nat) : Nat := (a + b) % M32

/-- Right rotation of a 32-bit word. -/
def rotr32 (n x : Nat) : Nat :=
  ((x >>> n) ||| (x <<< (32 - n))) % M32

/-- Bitwise complement of a 32-bit word. -/
def not32 (x : Nat) : Nat := x ^^^ (M32 - 1)

/-- SHA-256 `Ch`. -/
def shaCh (x y z : Nat) : Nat := (x &&& y) ^^^ (not32 x &&& z)

/-- SHA-256 `Maj`. -/
def shaMaj (x y z : Nat) : Nat := (x &&& y) ^^^ (x &&& z) ^^^ (y &&& z)

/-- SHA-256 big sigma 0. -/
def bSig0 (x : Nat) : Nat := rotr32 2 x ^^^ rotr32 13 x ^^^ rotr32 22 x

/-- SHA-256 big sigma 1. -/
def bSig1 (x : Nat) : Nat := rotr32 6 x ^^^ rotr32 11 x ^^^ rotr32 25 x

/-- SHA-256 small sigma 0. -/
def sSig0 (x : Nat) : Nat := rotr32 7 x ^^^ rotr32 18 x ^^^ (x >>> 3)

/-- SHA-256 small sigma 1. -/
def sSig1 (x : Nat) : Nat := rotr32 17 x ^^^ rotr32 19 x ^^^ (x >>> 10)

/-- The 64 SHA-256 round constants (FIPS 180-4, in decimal). -/
def shaK : List Nat :=
  [1116352408, 1899447441, 3049323471, 3921009573,
   961987163, 1508970993, 2453635748, 2870763221,
   3624381080, 310598401, 607225278, 1426881987,
   1925078388, 2162078206, 2614888103, 3248222580,
   3835390401, 4022224774, 264347078, 604807628,
   770255983, 1249150122, 1555081692, 1996064986,
   2554220882, 2821834349, 2952996808, 3210313671,
   3336571891, 3584528711, 113926993, 338241895,
   666307205, 773529912, 1294757372, 1396182291,
   1695183700, 1986661051, 2177026350, 2456956037,
   2730485921, 2820302411, 3259730800, 3345764771,
   3516065817, 3600352804, 4094571909, 275423344,
   430227734, 506948616, 659060556, 883997877,
   958139571, 1322822218, 1537002063, 1747873779,
   1955562222, 2024104815, 2227730452, 2361852424,
   2428436474, 2756734187, 3204031479, 3329325298]

/-- The initial SHA-256 hash state (FIPS 180-4, in decimal). -/
def shaH0 : List Nat :=
  [1779033703, 3144134277, 1013904242, 2773480762,
   1359893119, 2600822924, 528734635, 1541459225]

/-- A 64-bit length as 8 big-endian bytes. -/
def be64 (n : Nat) : List Nat :=
  [(n >>> 56) % 256, (n >>> 48) % 256, (n >>> 40) % 256, (n >>> 32) % 256,
   (n >>> 24) % 256, (n >>> 16) % 256, (n >>> 8) % 256, n % 256]

/-- SHA-256 padding: a `0x80` byte, zeros to 56 mod 64, and the bit length
as 8 big-endian bytes. -/
def padMsg (bytes : List Nat) : List Nat :=
  let l := bytes.length
  let k := (119 - l % 64) % 64
  bytes ++ 0x80 :: List.replicate k 0 ++ be64 (l * 8)

/-- Grouping the padded message into 64-byte blocks. -/
def chunks64 (l : List Nat) : List (List Nat) :=
  if l = [] then []
  else l.take 64 :: chunks64 (l.drop 64)
termination_by l.length
decreasing_by
  simp only [List.length_drop]
  have hne : l ≠ [] := by assumption
  have hpos : 0 < l.length := List.length_pos.mpr hne
  omega

/-- Four big-endian bytes at a time become 32-bit words. -/
def toWords : List Nat → List Nat
  | a :: b :: c :: d :: rest =>
      (a * 16777216 + b * 65536 + c * 256 + d) :: toWords rest
  | _ => []

/-- Extending the 16 message-schedule words by `k` more. -/
def extendW (w : List Nat) : Nat → List Nat
  | 0 => w
  | k + 1 =>
      let w2 := extendW w k
      let n := w2.length
      w2 ++ [add32 (add32 (sSig1 (w2.getD (n - 2) 0)) (w2.getD (n - 7) 0))
             (add32 (sSig0 (w2.getD (n - 15) 0)) (w2.getD (n - 16) 0))]

/-- One SHA-256 compression round on the eight-word working state. -/
def compressStep (w : List Nat) (st : List Nat) (t : Nat) : List Nat :=
  match st with
  | [a, b, c, d, e, f, g, h] =>
      let t1 := add32 h (add32 (bSig1 e)
        (add32 (shaCh e f g) (add32 (shaK.getD t 0) (w.getD t 0))))
      let t2 := add32 (bSig0 a) (shaMaj a b c)
      [add32 t1 t2, a, b, c, add32 d t1, e, f, g]
  | other => other

/-- Processing one 64-byte chunk against the running hash state. -/
def processChunk (h : List Nat) (chunk : List Nat) : List Nat :=
  let w := extendW (toWords chunk) 48
  let st := (List.range 64).foldl (compressStep w) h
  (h.zip st).map (fun p => add32 p.1 p.2)

/-- A lowercase hexadecimal digit. -/
def hexChar (n : Nat) : Char :=
  if n < 10 then Char.ofNat (48 + n) else Char.ofNat (87 + n % 16)

/-- A 32-bit word as 8 lowercase hex characters. -/
def wordToHex (w : Nat) : String :=
  String.mk ((List.range 8).map (fun i => hexChar ((w >>> (28 - 4 * i)) % 16)))

/-- SHA-256 of a byte sequence, as the 64-character lowercase hex digest. -/
def sha256Hex (bytes : List Nat) : String :=
  String.join (((chunks64 (padMsg bytes)).foldl processChunk shaH0).map wordToHex)

/-- `coordinate_hash()` from the compiled backend models: the SHA-256
hex digest of the UTF-8 bytes of `nuremberg_number()`; the recovered
bytecode renders values exactly as `coordinateToNuremberg` does (absent
as the empty string, lists comma-joined, numbers in decimal). -/
def coordinate_hash (c : AxisCoordinate) : String :=
  sha256Hex (strBytes (coordinateToNuremberg c))

/-- An optional field interpolated the way a Python f-string renders it:
an absent value prints as `None`. -/
def pyShow : Option String → String
  | none => "None"
  | some s => s

/-- `unified_system_id()` from the compiled backend models: the SHA-256
hex digest of the UTF-8 bytes of the f-string that joins `regulatory`,
`compliance` and `compliance_level or ''` with pipes (so an absent
regulatory or compliance prints as `None`, an absent compliance_level as
the empty string). -/
def unified_system_id (c : AxisCoordinate) : String :=
  sha256Hex (strBytes
    (pyShow c.regulatory ++ "|" ++ pyShow c.compliance ++ "|"
      ++ (match c.compliance_level with | none => "" | some s => s)))

/-- Field-by-field equality of two coordinates: identical field values. -/
def axesEq (c1 c2 : AxisCoordinate) : Prop :=
  c1.pillar = c2.pillar ∧ c1.sector = c2.sector ∧
  c1.honeycomb = c2.honeycomb ∧ c1.branch = c2.branch ∧
  c1.node = c2.node ∧ c1.regulatory = c2.regulatory ∧
  c1.compliance = c2.compliance ∧ c1.compliance_level = c2.compliance_level ∧
  c1.audit_requirements = c2.audit_requirements ∧
  c1.regulatory_framework = c2.regulatory_framework ∧
  c1.role_knowledge = c2.role_knowledge ∧ c1.role_sector = c2.role_sector ∧
  c1.role_regulatory = c2.role_regulatory ∧
  c1.role_compliance = c2.role_compliance ∧
  c1.location = c2.location ∧ c1.temporal = c2.temporal

instance (c1 c2 : AxisCoordinate) : Decidable (axesEq c1 c2) := by
  unfold axesEq
  infer_instance

/-! ## Delimiter-freedom and canonical-form predicates -/

/-- A string containing neither the field delimiter `|` nor the array
delimiter `,`. -/
def noDelimsStr (s : String) : Bool :=
  decide ('|' ∉ s.data) && decide (',' ∉ s.data)

/-- Delimiter freedom of an optional string field. -/
def noDelimsOpt : Option String → Bool
  | none => true
  | some s => noDelimsStr s

/-- No field value of the coordinate contains `|` or `,` (for the
honeycomb array, no element does). -/
def noDelims (c : AxisCoordinate) : Bool :=
  noDelimsStr c.pillar &&
  (match c.sector with
   | .str s => noDelimsStr s
   | .num _ => true) &&
  (match c.honeycomb with
   | none => true
   | some l => l.all noDelimsStr) &&
  noDelimsOpt c.branch && noDelimsOpt c.node && noDelimsOpt c.regulatory &&
  noDelimsOpt c.compliance && noDelimsOpt c.compliance_level &&
  noDelimsOpt c.audit_requirements && noDelimsOpt c.regulatory_framework &&
  noDelimsOpt c.role_knowledge && noDelimsOpt c.role_sector &&
  noDelimsOpt c.role_regulatory && noDelimsOpt c.role_compliance &&
  noDelimsOpt c.location && noDelimsOpt c.temporal

/-- A coordinate in the canonical image of `decode`: the sector is stored
as a string, no present optional string axis is the empty string, and the
honeycomb, when present, is a non-empty list whose comma-join is
non-empty. -/
def canonicalForm (c : AxisCoordinate) : Bool :=
  (match c.sector with
   | .str _ => true
   | .num _ => false) &&
  (match c.honeycomb with
   | none => true
   | some l => !l.isEmpty && !(joinSep ',' l == "")) &&
  (c.branch != some ("")) && (c.node != some ("")) &&
  (c.regulatory != some ("")) && (c.compliance != some ("")) &&
  (c.compliance_level != some ("")) && (c.audit_requirements != some ("")) &&
  (c.regulatory_framework != some ("")) && (c.role_knowledge != some ("")) &&
  (c.role_sector != some ("")) && (c.role_regulatory != some ("")) &&
  (c.role_compliance != some ("")) && (c.location != some ("")) &&
  (c.temporal != some (""))

/-- Every rendered slot of the coordinate is free of the field delimiter
`|`. -/
def pipeFreeSlots (c : AxisCoordinate) : Bool :=
  (coordinateToArray c).all (fun v => !(renderValue v).data.contains '|')

/-! ## Concrete coordinates used by the claim theorems -/

/-- Coordinate with `honeycomb = ["A","B"]` and every other axis empty or
absent. -/
def honeyCoord : AxisCoordinate :=
  ⟨"", .str (""), some ["A", "B"], none, none, none, none, none, none, none,
   none, none, none, none, none, none⟩

/-- Coordinate with empty pillar, empty sector and a malformed temporal
value. -/
def badCoord : AxisCoordinate :=
  ⟨"", .str (""), none, none, none, none, none, none, none, none,
   none, none, none, none, none, some ("not-a-date")⟩

/-- The example valid coordinate from the spec. -/
def exampleCoord : AxisCoordinate :=
  ⟨"PL01.1.1", .str ("5415"), none, none, none, none, none, none, none, none,
   none, none, none, none, none, none⟩

/-- The example coordinate of the spec with a malformed temporal value. -/
def exampleCoordBadTemporal : AxisCoordinate :=
  ⟨"PL01.1.1", .str ("5415"), none, none, none, none, none, none, none, none,
   none, none, none, none, none, some ("not-a-date")⟩

/-- The rendered slot of an optional string axis. -/
def optSlot : Option String → String
  | none => ""
  | some v => v

/-- The rendered slot of the honeycomb axis. -/
def honeySlot : Option (List String) → String
  | none => ""
  | some l => joinSep ',' l

/-- Valid coordinate with a numeric sector and no delimiter characters
anywhere; the counterexample input for the decode∘encode round trip. -/
def numSectorCoord : AxisCoordinate :=
  ⟨"PL01.1.1", .num 5415, none, none, none, none, none, none, none, none,
   none, none, none, none, none, none⟩

/-- A canonical-form coordinate exercising the amended round trip; its
temporal value carries the `Z` suffix that the backend accepts through
`pyReplaceZ` and the separator quirk of `fromisoformatOk`. -/
def roundtripCoord : AxisCoordinate :=
  ⟨"PL01.1.1", .str ("5415"), some ["A", "B"], some ("BR"), none, none, none,
   none, none, none, none, none, none, none, some ("US-CA"),
   some ("2024-01-01Z")⟩

/-! ## Theorems -/

/-! ## Split / join lemmas -/

theorem splitSepAux_not_mem (sep : Char) (cs : List Char) (h : sep ∉ cs) :
    splitSepAux sep cs = [cs] := by
  induction cs with
  | nil => rfl
  | cons c cs ih =>
      have hc : c ≠ sep := fun he => h (he ▸ List.mem_cons_self c cs)
      have hcs : sep ∉ cs := fun hm => h (List.mem_cons_of_mem c hm)
      simp [splitSepAux, hc, ih hcs]

theorem splitSepAux_append (sep : Char) (xs ys : List Char) (h : sep ∉ xs) :
    splitSepAux sep (xs ++ sep :: ys) = xs :: splitSepAux sep ys := by
  induction xs with
  | nil => simp [splitSepAux]
  | cons x xs ih =>
      have hx : x ≠ sep := fun he => h (he ▸ List.mem_cons_self x xs)
      have hxs : sep ∉ xs := fun hm => h (List.mem_cons_of_mem x hm)
      simp [splitSepAux, hx, ih hxs]

theorem data_joinSep_cons (sep : Char) (s s' : String) (rest : List String) :
    (joinSep sep (s :: s' :: rest)).data =
      s.data ++ sep :: (joinSep sep (s' :: rest)).data := by
  show (s ++ sep.toString ++ joinSep sep (s' :: rest)).data = _
  simp [String.data_append, Char.toString]

theorem string_mk_data (s : String) : String.mk s.data = s := rfl

/-- Splitting recovers the pieces joined by `joinSep`, when the list of
pieces is non-empty and no piece contains the separator. -/
theorem splitSep_joinSep (sep : Char) (l : List String) (hne : l ≠ [])
    (h : ∀ s ∈ l, sep ∉ s.data) : splitSep sep (joinSep sep l) = l := by
  induction l with
  | nil => exact absurd rfl hne
  | cons s rest ih =>
      cases rest with
      | nil =>
          have hs : sep ∉ s.data := h s (List.mem_cons_self s [])
          simp [splitSep, joinSep, splitSepAux_not_mem sep s.data hs,
            string_mk_data]
      | cons s' rest' =>
          have hs : sep ∉ s.data := h s (List.mem_cons_self s _)
          have hrest : ∀ x ∈ s' :: rest', sep ∉ x.data :=
            fun x hx => h x (List.mem_cons_of_mem s hx)
          have ihr := ih (by simp) hrest
          simp only [splitSep, data_joinSep_cons,
            splitSepAux_append sep s.data _ hs, List.map_cons,
            string_mk_data]
          simpa [splitSep] using ihr

/-- The number of separator characters `joinSep` introduces: one fewer
than the number of pieces, when no piece contains the separator. -/
theorem count_joinSep (sep : Char) (l : List String) (hne : l ≠ [])
    (h : ∀ s ∈ l, sep ∉ s.data) :
    (joinSep sep l).data.count sep = l.length - 1 := by
  induction l with
  | nil => exact absurd rfl hne
  | cons s rest ih =>
      cases rest with
      | nil =>
          have hs : sep ∉ s.data := h s (List.mem_cons_self s [])
          simp [joinSep, List.count_eq_zero.mpr hs]
      | cons s' rest' =>
          have hs : sep ∉ s.data := h s (List.mem_cons_self s _)
          have hrest : ∀ x ∈ s' :: rest', sep ∉ x.data :=
            fun x hx => h x (List.mem_cons_of_mem s hx)
          have ihr := ih (by simp) hrest
          simp [data_joinSep_cons, List.count_append, List.count_cons,
            List.count_eq_zero.mpr hs, ihr]

theorem axesEq_iff (c1 c2 : AxisCoordinate) : axesEq c1 c2 ↔ c1 = c2 := by
  constructor
  · intro h
    obtain ⟨h1, h2, h3, h4, h5, h6, h7, h8, h9, h10, h11, h12, h13, h14, h15, h16⟩ := h
    cases c1; cases c2
    simp_all
  · rintro rfl
    exact ⟨rfl, rfl, rfl, rfl, rfl, rfl, rfl, rfl, rfl, rfl, rfl, rfl, rfl, rfl, rfl, rfl⟩

/-- A character different from the separator occurs in a `joinSep` result
only if it occurs in one of the pieces. -/
theorem joinSep_char_free (sep ch : Char) (l : List String)
    (hne : ch ≠ sep) (h : ∀ s ∈ l, ch ∉ s.data) :
    ch ∉ (joinSep sep l).data := by
  induction l with
  | nil => simp [joinSep]
  | cons s rest ih =>
      cases rest with
      | nil => simpa [joinSep] using h s (List.mem_cons_self s [])
      | cons s2 rest2 =>
          have hs : ch ∉ s.data := h s (List.mem_cons_self s _)
          have hrest : ∀ x ∈ s2 :: rest2, ch ∉ x.data :=
            fun x hx => h x (List.mem_cons_of_mem s hx)
          rw [data_joinSep_cons]
          intro hmem
          rcases List.mem_append.mp hmem with hmem | hmem
          · exact hs hmem
          · rcases List.mem_cons.mp hmem with hmem | hmem
            · exact hne hmem
            · exact ih hrest hmem

/-- An optional string axis is rendered `undef` exactly when it is
absent. -/
theorem optVal_eq_undef (o : Option String) :
    axisValueOf.optVal o = .undef ↔ o = none := by
  cases o <;> simp [axisValueOf.optVal]

/-! ## Claim theorems -/

/-- Claim C3: `coordinateToNuremberg` of the coordinate whose honeycomb is
`["A","B"]` and whose other 15 axes are all empty or absent produces the
string whose first two slots are empty, whose third slot is `A,B`, and
whose remaining 13 slots are empty: `||A,B` followed by 13 `|` characters,
i.e. 15 `|`-separated slots in total. -/
theorem nuremberg_honeycomb_example :
    coordinateToNuremberg honeyCoord = "||A,B|||||||||||||" ∧
    splitSep '|' (coordinateToNuremberg honeyCoord) =
      ["", "", "A,B", "", "", "", "", "", "", "", "", "", "", "", "", ""] := by
  decide

/-- Claim C10: `createEmptyCoordinate` returns a coordinate whose pillar and
sector are both the empty string and whose other 14 axes are absent; its
Nuremberg encoding is the string of exactly 15 `|` characters and nothing
else (16 empty slots), and it has zero filled axes. -/
theorem empty_coordinate_zero_filled :
    createEmptyCoordinate.pillar = "" ∧
    createEmptyCoordinate.sector = .str ("") ∧
    createEmptyCoordinate.honeycomb = none ∧
    createEmptyCoordinate.branch = none ∧
    createEmptyCoordinate.node = none ∧
    createEmptyCoordinate.regulatory = none ∧
    createEmptyCoordinate.compliance = none ∧
    createEmptyCoordinate.compliance_level = none ∧
    createEmptyCoordinate.audit_requirements = none ∧
    createEmptyCoordinate.regulatory_framework = none ∧
    createEmptyCoordinate.role_knowledge = none ∧
    createEmptyCoordinate.role_sector = none ∧
    createEmptyCoordinate.role_regulatory = none ∧
    createEmptyCoordinate.role_compliance = none ∧
    createEmptyCoordinate.location = none ∧
    createEmptyCoordinate.temporal = none ∧
    (coordinateToNuremberg createEmptyCoordinate).data =
      List.replicate 15 '|' ∧
    get_filled_axes_count createEmptyCoordinate = 0 := by
  decide

/-- Claim C7: `validate` is a total function, and it aggregates every
violation instead of stopping at the first: on the coordinate with empty
pillar, empty sector and malformed temporal value, the returned report is
invalid and its error list contains the pillar, sector and temporal
violations all at once. -/
theorem validate_aggregates_all_errors :
    (validate badCoord).valid = false ∧
    pillarError ∈ (validate badCoord).errors ∧
    sectorError ∈ (validate badCoord).errors ∧
    temporalError ∈ (validate badCoord).errors ∧
    validate badCoord = ⟨false, [pillarError, sectorError, temporalError]⟩ := by
  decide

/-- Claim C9: Encoding is not injective even without delimiter collisions:
replacing a numeric sector `n` by the decimal string of `n` leaves the
Nuremberg string unchanged, and replacing an empty honeycomb array by an
absent honeycomb leaves it unchanged, so `decode` cannot distinguish
these inputs. -/
theorem encode_not_injective :
    (∀ p hc b nd r co cl au rf rk rs rr rc lo te (n : Int),
      coordinateToNuremberg
        ⟨p, .num n, hc, b, nd, r, co, cl, au, rf, rk, rs, rr, rc, lo, te⟩ =
      coordinateToNuremberg
        ⟨p, .str (toString n), hc, b, nd, r, co, cl, au, rf, rk, rs, rr, rc,
         lo, te⟩) ∧
    (∀ p sec b nd r co cl au rf rk rs rr rc lo te,
      coordinateToNuremberg
        ⟨p, sec, some [], b, nd, r, co, cl, au, rf, rk, rs, rr, rc, lo, te⟩ =
      coordinateToNuremberg
        ⟨p, sec, none, b, nd, r, co, cl, au, rf, rk, rs, rr, rc, lo, te⟩) := by
  constructor
  · intros
    simp [coordinateToNuremberg, AXIS_KEYS, axisValueOf, renderValue]
  · intros
    simp [coordinateToNuremberg, AXIS_KEYS, axisValueOf, renderValue, joinSep]

/-- Claim C4: `coordinateToArray` returns exactly 16 elements, the `i`-th
being the value of the `i`-th axis in the fixed canonical order `pillar,
sector, honeycomb, branch, node, regulatory, compliance,
compliance_level, audit_requirements, regulatory_framework,
role_knowledge, role_sector, role_regulatory, role_compliance, location,
temporal`, and an entry is the null marker `undef` exactly when the
corresponding optional axis is missing. -/
theorem as_list_canonical_order (c : AxisCoordinate) :
    (coordinateToArray c).length = 16 ∧
    coordinateToArray c =
      [axisValueOf c .pillar, axisValueOf c .sector, axisValueOf c .honeycomb,
       axisValueOf c .branch, axisValueOf c .node, axisValueOf c .regulatory,
       axisValueOf c .compliance, axisValueOf c .compliance_level,
       axisValueOf c .audit_requirements,
       axisValueOf c .regulatory_framework,
       axisValueOf c .role_knowledge, axisValueOf c .role_sector,
       axisValueOf c .role_regulatory, axisValueOf c .role_compliance,
       axisValueOf c .location, axisValueOf c .temporal] ∧
    ((coordinateToArray c).getD 2 .undef = .undef ↔ c.honeycomb = none) ∧
    ((coordinateToArray c).getD 3 .undef = .undef ↔ c.branch = none) ∧
    ((coordinateToArray c).getD 4 .undef = .undef ↔ c.node = none) ∧
    ((coordinateToArray c).getD 5 .undef = .undef ↔ c.regulatory = none) ∧
    ((coordinateToArray c).getD 6 .undef = .undef ↔ c.compliance = none) ∧
    ((coordinateToArray c).getD 7 .undef = .undef ↔
      c.compliance_level = none) ∧
    ((coordinateToArray c).getD 8 .undef = .undef ↔
      c.audit_requirements = none) ∧
    ((coordinateToArray c).getD 9 .undef = .undef ↔
      c.regulatory_framework = none) ∧
    ((coordinateToArray c).getD 10 .undef = .undef ↔
      c.role_knowledge = none) ∧
    ((coordinateToArray c).getD 11 .undef = .undef ↔ c.role_sector = none) ∧
    ((coordinateToArray c).getD 12 .undef = .undef ↔
      c.role_regulatory = none) ∧
    ((coordinateToArray c).getD 13 .undef = .undef ↔
      c.role_compliance = none) ∧
    ((coordinateToArray c).getD 14 .undef = .undef ↔ c.location = none) ∧
    ((coordinateToArray c).getD 15 .undef = .undef ↔ c.temporal = none) := by
  refine ⟨by simp [coordinateToArray, AXIS_KEYS], rfl, ?_, ?_, ?_, ?_, ?_, ?_,
    ?_, ?_, ?_, ?_, ?_, ?_, ?_, ?_⟩
  · cases hc : c.honeycomb <;>
      simp [coordinateToArray, AXIS_KEYS, axisValueOf, hc]
  all_goals simp [coordinateToArray, AXIS_KEYS, axisValueOf, optVal_eq_undef]

/-- Claim C2: `coordinateToNuremberg` is the 16 rendered axis values in
canonical order joined with `|`: the slot list has length 16, the
honeycomb slot is its elements joined with `,`, an absent axis renders as
the empty string, and — when no rendered slot contains `|` — the encoded
string contains exactly 15 `|` separator characters. -/
theorem nuremberg_encode_shape (c : AxisCoordinate) :
    coordinateToNuremberg c =
      joinSep '|' ((coordinateToArray c).map renderValue) ∧
    ((coordinateToArray c).map renderValue).length = 16 ∧
    (∀ l, c.honeycomb = some l →
      ((coordinateToArray c).map renderValue).getD 2 "" = joinSep ',' l) ∧
    (∀ k ∈ AXIS_KEYS, axisValueOf c k = .undef →
      renderValue (axisValueOf c k) = "") ∧
    (pipeFreeSlots c = true →
      (coordinateToNuremberg c).data.count '|' = 15) := by
  refine ⟨rfl, by simp [coordinateToArray, AXIS_KEYS], ?_, ?_, ?_⟩
  · intro l hl
    simp [coordinateToArray, AXIS_KEYS, axisValueOf, hl, renderValue]
  · intro k _ h
    rw [h]
    rfl
  · intro h
    have hs : ∀ s ∈ (coordinateToArray c).map renderValue, '|' ∉ s.data := by
      intro s hsm
      rcases List.mem_map.mp hsm with ⟨v, hv, rfl⟩
      have := List.all_eq_true.mp h v hv
      simpa using this
    have hne : (coordinateToArray c).map renderValue ≠ [] := by
      simp [coordinateToArray, AXIS_KEYS]
    have hcount :=
      count_joinSep '|' ((coordinateToArray c).map renderValue) hne hs
    have hlen : ((coordinateToArray c).map renderValue).length = 16 := by
      simp [coordinateToArray, AXIS_KEYS]
    rw [hlen] at hcount
    exact hcount

/-- Witness for claim C2 at the honeycomb example coordinate. -/
theorem nuremberg_encode_shape_witness :
    honeyCoord.honeycomb = some ["A", "B"] ∧
    pipeFreeSlots honeyCoord = true ∧
    axisValueOf honeyCoord .branch = .undef ∧
    ((coordinateToArray honeyCoord).map renderValue).getD 2 "" =
      joinSep ',' ["A", "B"] ∧
    renderValue (axisValueOf honeyCoord .branch) = "" ∧
    (coordinateToNuremberg honeyCoord).data.count '|' = 15 :=
  ⟨rfl, by decide, rfl,
   (nuremberg_encode_shape honeyCoord).2.2.1 ["A", "B"] rfl,
   (nuremberg_encode_shape honeyCoord).2.2.2.1 .branch (by decide) rfl,
   (nuremberg_encode_shape honeyCoord).2.2.2.2 (by decide)⟩

/-- Claim C5: The completeness ratio equals the filled-axes count divided by
exactly 16, lies in `[0,1]`, and is monotonically non-decreasing as more
axes are filled: a coordinate whose filled axes include those of another
has a ratio at least as large. -/
theorem completeness_ratio_bounds_mono :
    (∀ c, get_axis_completeness_ratio c =
        (get_filled_axes_count c : ℚ) / 16 ∧
      0 ≤ get_axis_completeness_ratio c ∧
      get_axis_completeness_ratio c ≤ 1) ∧
    (∀ c1 c2, (∀ k ∈ AXIS_KEYS, isFilled (axisValueOf c1 k) = true →
        isFilled (axisValueOf c2 k) = true) →
      get_axis_completeness_ratio c1 ≤ get_axis_completeness_ratio c2) := by
  have hle : ∀ c, get_filled_axes_count c ≤ 16 := by
    intro c
    have h := List.countP_le_length (fun v => isFilled v)
      (l := coordinateToArray c)
    simpa [coordinateToArray, AXIS_KEYS] using h
  constructor
  · intro c
    refine ⟨rfl, ?_, ?_⟩
    · unfold get_axis_completeness_ratio
      positivity
    · unfold get_axis_completeness_ratio
      rw [div_le_one (by norm_num)]
      exact_mod_cast hle c
  · intro c1 c2 h
    have hcount : get_filled_axes_count c1 ≤ get_filled_axes_count c2 := by
      unfold get_filled_axes_count coordinateToArray
      rw [List.countP_map, List.countP_map]
      exact List.countP_mono_left (by intro k hk hp; exact h k hk hp)
    unfold get_axis_completeness_ratio
    gcongr

/-- Witness for claim C5: the axes of the empty coordinate are pointwise
at most those of the example coordinate, and the monotonicity instance
follows. -/
theorem completeness_ratio_bounds_mono_witness :
    (∀ k ∈ AXIS_KEYS, isFilled (axisValueOf createEmptyCoordinate k) = true →
      isFilled (axisValueOf exampleCoord k) = true) ∧
    get_axis_completeness_ratio createEmptyCoordinate ≤
      get_axis_completeness_ratio exampleCoord ∧
    0 ≤ get_axis_completeness_ratio exampleCoord ∧
    get_axis_completeness_ratio exampleCoord ≤ 1 :=
  ⟨by decide,
   completeness_ratio_bounds_mono.2 createEmptyCoordinate exampleCoord
     (by decide),
   (completeness_ratio_bounds_mono.1 exampleCoord).2.1,
   (completeness_ratio_bounds_mono.1 exampleCoord).2.2⟩

/-- Claim C6: `validate` of a coordinate with non-empty pillar and sector
and no temporal axis returns a valid report with no errors; with a
temporal value that the backend temporal check rejects — Python 3.10
`datetime.fromisoformat` after replacing every `Z` by `+00:00`, as in
`validate_temporal` of the compiled models — it returns an invalid
report whose single error names the temporal axis. -/
theorem validate_temporal_behaviour :
    (∀ c, c.pillar ≠ "" → sectorNonEmpty c.sector = true →
      c.temporal = none → validate c = ⟨true, []⟩) ∧
    (∀ c t, c.pillar ≠ "" → sectorNonEmpty c.sector = true →
      c.temporal = some t → fromisoformatOk (pyReplaceZ t) = false →
      validate c = ⟨false, [temporalError]⟩ ∧
      "temporal".data.isPrefixOf temporalError.data = true) := by
  constructor
  · intro c h1 h2 h3
    simp [validate, h1, h2, h3]
  · intro c t h1 h2 h3 h4
    refine ⟨?_, by decide⟩
    simp [validate, h1, h2, h3, h4]

/-- Witness for claim C6 at the two example coordinates from the spec. -/
theorem validate_temporal_behaviour_witness :
    exampleCoord.pillar ≠ "" ∧
    sectorNonEmpty exampleCoord.sector = true ∧
    exampleCoord.temporal = none ∧
    validate exampleCoord = ⟨true, []⟩ ∧
    exampleCoordBadTemporal.temporal = some ("not-a-date") ∧
    fromisoformatOk (pyReplaceZ ("not-a-date")) = false ∧
    validate exampleCoordBadTemporal = ⟨false, [temporalError]⟩ :=
  ⟨by decide, by decide, rfl,
   validate_temporal_behaviour.1 exampleCoord (by decide) (by decide) rfl,
   rfl, by decide,
   (validate_temporal_behaviour.2 exampleCoordBadTemporal ("not-a-date")
     (by decide) (by decide) rfl (by decide)).1⟩

theorem renderValue_optVal (o : Option String) :
    renderValue (axisValueOf.optVal o) = optSlot o := by
  cases o <;> rfl

theorem renderValue_str (s : String) : renderValue (.str s) = s := rfl

theorem renderValue_undef : renderValue .undef = "" := rfl

theorem renderValue_arr (l : List String) :
    renderValue (.arr l) = joinSep ',' l := rfl

theorem noDelimsStr_pipe (s : String) (h : noDelimsStr s = true) :
    '|' ∉ s.data := by
  simp [noDelimsStr] at h
  exact h.1

theorem noDelimsStr_comma (s : String) (h : noDelimsStr s = true) :
    ',' ∉ s.data := by
  simp [noDelimsStr] at h
  exact h.2

theorem optSlot_pipe (o : Option String) (h : noDelimsOpt o = true) :
    '|' ∉ (optSlot o).data := by
  cases o with
  | none => simp [optSlot]
  | some v => exact noDelimsStr_pipe v h

theorem honeySlot_pipe (o : Option (List String))
    (h : (match o with
          | none => true
          | some l => l.all noDelimsStr) = true) :
    '|' ∉ (honeySlot o).data := by
  cases o with
  | none => simp [honeySlot]
  | some l =>
      refine joinSep_char_free ',' '|' l (by decide) ?_
      intro s hs
      exact noDelimsStr_pipe s (List.all_eq_true.mp h s hs)

/-- The Nuremberg string of a string-sector coordinate, as the join of
its 16 explicit slots. -/
theorem encode_slots (p s : String) (hcb : Option (List String))
    (b nd r co cl au rf rk rs2 rr rc lo te : Option String) :
    coordinateToNuremberg
      ⟨p, .str s, hcb, b, nd, r, co, cl, au, rf, rk, rs2, rr, rc, lo, te⟩ =
    joinSep '|' [p, s, honeySlot hcb, optSlot b, optSlot nd, optSlot r,
      optSlot co, optSlot cl, optSlot au, optSlot rf, optSlot rk,
      optSlot rs2, optSlot rr, optSlot rc, optSlot lo, optSlot te] := by
  cases hcb <;>
    simp [coordinateToNuremberg, AXIS_KEYS, axisValueOf, renderValue_str,
      renderValue_arr, renderValue_undef, renderValue_optVal, honeySlot]

theorem optOf_optSlot (o : Option String) (h : o ≠ some ("")) :
    optOf (optSlot o) = o := by
  cases o with
  | none => simp [optSlot, optOf]
  | some v =>
      have hv : v ≠ "" := fun he => h (he ▸ rfl)
      simp [optSlot, optOf, hv]

/-- Claim C1 counterexample: A valid coordinate without any delimiter
character in its field values on which `decode (encode C) = C` fails: the
numeric sector `5415` is re-decoded as the string `"5415"`. -/
theorem decode_encode_id_counterexample :
    (validate numSectorCoord).valid = true ∧
    noDelims numSectorCoord = true ∧
    decode (coordinateToNuremberg numSectorCoord) ≠ numSectorCoord := by
  decide

/-- Claim C1, amended: For every valid coordinate without `|` or `,` in
its field values that is moreover in the canonical image of decode — sector
stored as a string, no present optional axis equal to the empty string,
honeycomb (if present) non-empty with a non-empty comma-join — decoding
the encoded form returns the coordinate unchanged. -/
theorem decode_encode_id_canonical (c : AxisCoordinate)
    (hval : (validate c).valid = true)
    (hd : noDelims c = true) (hcf : canonicalForm c = true) :
    decode (coordinateToNuremberg c) = c := by
  clear hval
  obtain ⟨p, sec, hcb, b, nd, r, co, cl, au, rf, rk, rs2, rr, rc, lo, te⟩ := c
  cases sec with
  | num n => simp [canonicalForm] at hcf
  | str s =>
    simp only [noDelims, Bool.and_eq_true] at hd
    obtain ⟨⟨⟨⟨⟨⟨⟨⟨⟨⟨⟨⟨⟨⟨⟨hdp, hds⟩, hdh⟩, hdb⟩, hdnd⟩, hdr⟩, hdco⟩, hdcl⟩,
      hdau⟩, hdrf⟩, hdrk⟩, hdrs⟩, hdrr⟩, hdrc⟩, hdlo⟩, hdte⟩ := hd
    simp only [canonicalForm, Bool.and_eq_true, bne_iff_ne, ne_eq] at hcf
    obtain ⟨⟨⟨⟨⟨⟨⟨⟨⟨⟨⟨⟨⟨⟨-, hch⟩, hcb1⟩, hcnd⟩, hcr⟩, hcco⟩, hccl⟩,
      hcau⟩, hcrf⟩, hcrk⟩, hcrs⟩, hcrr⟩, hcrc⟩, hclo⟩, hcte⟩ := hcf
    rw [encode_slots]
    have hpipe : ∀ x ∈ [p, s, honeySlot hcb, optSlot b, optSlot nd,
        optSlot r, optSlot co, optSlot cl, optSlot au, optSlot rf,
        optSlot rk, optSlot rs2, optSlot rr, optSlot rc, optSlot lo,
        optSlot te], '|' ∉ x.data := by
      intro x hx
      simp only [List.mem_cons, List.not_mem_nil, or_false] at hx
      rcases hx with
        rfl|rfl|rfl|rfl|rfl|rfl|rfl|rfl|rfl|rfl|rfl|rfl|rfl|rfl|rfl|rfl
      · exact noDelimsStr_pipe _ hdp
      · exact noDelimsStr_pipe _ hds
      · exact honeySlot_pipe _ hdh
      · exact optSlot_pipe _ hdb
      · exact optSlot_pipe _ hdnd
      · exact optSlot_pipe _ hdr
      · exact optSlot_pipe _ hdco
      · exact optSlot_pipe _ hdcl
      · exact optSlot_pipe _ hdau
      · exact optSlot_pipe _ hdrf
      · exact optSlot_pipe _ hdrk
      · exact optSlot_pipe _ hdrs
      · exact optSlot_pipe _ hdrr
      · exact optSlot_pipe _ hdrc
      · exact optSlot_pipe _ hdlo
      · exact optSlot_pipe _ hdte
    have hsplit := splitSep_joinSep '|' [p, s, honeySlot hcb, optSlot b,
      optSlot nd, optSlot r, optSlot co, optSlot cl, optSlot au, optSlot rf,
      optSlot rk, optSlot rs2, optSlot rr, optSlot rc, optSlot lo,
      optSlot te] (by simp) hpipe
    simp only [decode, hsplit, getSlot, List.getD_cons_zero,
      List.getD_cons_succ, AxisCoordinate.mk.injEq]
    refine ⟨trivial, trivial, ?_, optOf_optSlot b hcb1, optOf_optSlot nd hcnd,
      optOf_optSlot r hcr, optOf_optSlot co hcco, optOf_optSlot cl hccl,
      optOf_optSlot au hcau, optOf_optSlot rf hcrf, optOf_optSlot rk hcrk,
      optOf_optSlot rs2 hcrs, optOf_optSlot rr hcrr, optOf_optSlot rc hcrc,
      optOf_optSlot lo hclo, optOf_optSlot te hcte⟩
    cases hcb with
    | none => simp [honeySlot]
    | some l =>
        simp only [Bool.and_eq_true, Bool.not_eq_true', beq_eq_false_iff_ne,
          ne_eq] at hch
        obtain ⟨hl1, hl2⟩ := hch
        have hlne : l ≠ [] := by
          intro he
          subst he
          simp at hl1
        simp only [honeySlot]
        rw [if_neg hl2]
        refine congrArg some (splitSep_joinSep ',' l hlne ?_)
        intro x hx
        exact noDelimsStr_comma x (List.all_eq_true.mp hdh x hx)

/-- Witness for the amended claim C1 at a concrete canonical coordinate. -/
theorem decode_encode_id_canonical_witness :
    (validate roundtripCoord).valid = true ∧
    noDelims roundtripCoord = true ∧
    canonicalForm roundtripCoord = true ∧
    decode (coordinateToNuremberg roundtripCoord) = roundtripCoord :=
  ⟨by decide, by decide, by decide,
   decode_encode_id_canonical roundtripCoord (by decide) (by decide)
     (by decide)⟩

/-- `pyReplaceZ` replaces every occurrence of `Z`, not only a suffix,
matching Python `replace`. -/
theorem pyReplaceZ_replaces_every_z :
    pyReplaceZ ("Z1Z") = "+00:001+00:00" := by decide

/-- The separator quirk of CPython 3.10: after replacing the `Z` of
`2024-01-01Z`, the `+` lands in the separator position and the rest is a
plain midnight time, so the backend accepts it. -/
theorem fromisoformat_accepts_date_z_suffix :
    fromisoformatOk (pyReplaceZ ("2024-01-01Z")) = true := by decide

/-- Python 3.10 accepts an hour-only time. -/
theorem fromisoformat_accepts_hour_only :
    fromisoformatOk ("2024-01-01T12") = true := by decide

/-- Python 3.10 accepts offsets with a seconds component. -/
theorem fromisoformat_accepts_offset_with_seconds :
    fromisoformatOk ("2024-01-01T00:00:00+05:00:30") = true := by decide

/-- Python 3.10 does not range-check offset components below 24 hours
total, so a 75-minute offset is accepted. -/
theorem fromisoformat_accepts_offset_minute_75 :
    fromisoformatOk ("2024-01-01T00:00+00:75") = true := by decide

/-- The calendar check rejects February 31st. -/
theorem fromisoformat_rejects_feb_31 :
    fromisoformatOk ("2024-02-31") = false := by decide

/-- Leap-year handling: February 29th exists in 2024 but not in 2023. -/
theorem fromisoformat_leap_year :
    fromisoformatOk ("2024-02-29") = true ∧
    fromisoformatOk ("2023-02-29") = false := by decide

/-- MINYEAR is 1: the year 0000 is rejected. -/
theorem fromisoformat_rejects_year_zero :
    fromisoformatOk ("0000-01-01") = false := by decide

/-- Fractions must have exactly 3 or 6 digits: a 1-digit fraction is
rejected. -/
theorem fromisoformat_rejects_short_fraction :
    fromisoformatOk ("2024-01-01T00:00:00.1") = false := by decide

/-- An offset of 24 hours or more is rejected by the timezone
constructor. -/
theorem fromisoformat_rejects_offset_24h :
    fromisoformatOk ("2024-01-01T00:00+24:00") = false := by decide

end Codec
